import Mathlib

/-!
# Verification of the TempusVestis wardrobe-consultant pipeline

A shallow embedding of the repository's own orchestration code
(`main.py`, `src/core/agent.py`, `src/core/rag.py`,
`src/tools/weather_api.py`, `src/tools/date_ops.py`) together with
theorems about it.  External services (the chat model, the vector
store, the HTTP layer) are modelled as explicit function parameters;
Python/JSON values are modelled by the inductive type `Json` below.
-/

namespace TempusVestis

/-- A Python/JSON value as it flows through the pipeline: `None`,
booleans, (integer) numbers, strings, lists and dicts.  Dicts are
association lists; Python dicts have unique keys, and only the first
binding of a key is ever consulted. -/
inductive Json where
  | null : Json
  | bool (b : Bool) : Json
  | num (n : Int) : Json
  | str (s : String) : Json
  | arr (xs : List Json) : Json
  | obj (fields : List (String × Json)) : Json

/-- First binding of `key` in an association list, as Python dict lookup. -/
def lookupField : List (String × Json) → String → Option Json
  | [], _ => none
  | (k, v) :: rest, key => if k = key then some v else lookupField rest key

/-- `d.get(key)` on a dict; `none` on a missing key or a non-dict value. -/
def Json.get? : Json → String → Option Json
  | Json.obj fields, key => lookupField fields key
  | _, _ => none

/-- `pat` occurs as a contiguous run inside `s` (Python `pat in s` on lists
of characters). -/
def subListOf : List Char → List Char → Bool
  | pat, [] => pat.isEmpty
  | pat, c :: rest => pat.isPrefixOf (c :: rest) || subListOf pat rest

/-- Python substring test `pat in s`. -/
def strContains (s pat : String) : Bool := subListOf pat.data s.data

/-- A single-quote character as a string (used to spell Python reprs). -/
def sq : String := (Char.ofNat 39).toString

/-! ## `src/tools/weather_api.py`

HTTP is modelled by a function `http : String → Json` giving the parsed
JSON body of a GET to each URL.  A Python `KeyError` escaping a function
is modelled by an `Option` result of `none`. -/

/-- Modelled from the spec: `src/tools/constants.py` is not among the
sources; the spec names "a national weather forecast API" and the tests
use `api.weather.gov` URLs.  No claim depends on the constant's value. -/
def NWS_BASE_URL : String := "https://api.weather.gov"

/-- The URL requested by the first GET of `_get_forecast_url`
(`f"{NWS_BASE_URL}/points/{latitude},{longitude}"`).  Coordinates are
carried as their rendered decimal strings. -/
def points_url (latitude longitude : String) : String :=
  NWS_BASE_URL ++ "/points/" ++ latitude ++ "," ++ longitude

/-- `data["properties"]["forecast"]` on the parsed points response;
`none` models the `KeyError` (or a non-URL value) escaping. -/
def forecastUrlOf (pointsBody : Json) : Option String :=
  match pointsBody.get? "properties" with
  | some props =>
    match props.get? "forecast" with
    | some (Json.str u) => some u
    | _ => none
  | none => none

/-- Embeds `_get_forecast_url` of `src/tools/weather_api.py`. -/
def _get_forecast_url (http : String → Json) (latitude longitude : String) :
    Option String :=
  forecastUrlOf (http (points_url latitude longitude))

/-- Embeds `_get_summary` of `src/tools/weather_api.py`: it returns its
argument unchanged. -/
def _get_summary (forecast : Json) : Json := forecast

/-- Embeds the tool function `get_weather_forecast` of
`src/tools/weather_api.py`: resolve the forecast URL from the points
endpoint, GET it, and return its parsed JSON body (through `_get_summary`
when `summarize` is set). -/
def get_weather_forecast (http : String → Json) (latitude longitude : String)
    (summarize : Bool := true) : Option Json :=
  match _get_forecast_url http latitude longitude with
  | none => none
  | some forecast_url =>
    some (if summarize then _get_summary (http forecast_url) else http forecast_url)

/-- The URLs `get_weather_forecast` requests over HTTP, in order: the
points URL always, then the resolved forecast URL when the first
response yields one. -/
def weather_request_trace (http : String → Json) (latitude longitude : String) :
    List String :=
  match forecastUrlOf (http (points_url latitude longitude)) with
  | none => [points_url latitude longitude]
  | some u2 => [points_url latitude longitude, u2]

/-- C2: whenever the points response yields a forecast URL `u2` (the case
in which the function returns a value at all), `get_weather_forecast`
performs exactly the two GETs, to `NWS_BASE_URL ++ "/points/" ++ lat ++
"," ++ lon` and then to `u2`, and returns the parsed JSON body of the
second response. -/
theorem get_weather_forecast_two_requests
    (http : String → Json) (latitude longitude : String) (summarize : Bool)
    (u2 : String) (h : _get_forecast_url http latitude longitude = some u2) :
    weather_request_trace http latitude longitude =
      [NWS_BASE_URL ++ "/points/" ++ latitude ++ "," ++ longitude, u2] ∧
    get_weather_forecast http latitude longitude summarize = some (http u2) := by
  have hp : points_url latitude longitude =
      NWS_BASE_URL ++ "/points/" ++ latitude ++ "," ++ longitude := rfl
  constructor
  · unfold weather_request_trace
    simp only [_get_forecast_url] at h
    rw [h, hp]
  · unfold get_weather_forecast
    rw [h]
    cases summarize <;> rfl

/-- A concrete HTTP environment: the points endpoint for (39.7456,
-97.0892) names a forecast URL, which serves a one-period forecast. -/
def httpExample : String → Json := fun url =>
  if url = points_url "39.7456" "-97.0892" then
    Json.obj [("properties",
      Json.obj [("forecast", Json.str "https://api.weather.gov/gridpoints/TOP/31,80/forecast")])]
  else if url = "https://api.weather.gov/gridpoints/TOP/31,80/forecast" then
    Json.obj [("properties",
      Json.obj [("periods", Json.arr [Json.obj [("name", Json.str "Today"),
        ("temperature", Json.num 75)]])])]
  else Json.null

theorem get_weather_forecast_two_requests_witness :
    weather_request_trace httpExample "39.7456" "-97.0892" =
      [NWS_BASE_URL ++ "/points/" ++ "39.7456" ++ "," ++ "-97.0892",
       "https://api.weather.gov/gridpoints/TOP/31,80/forecast"] ∧
    get_weather_forecast httpExample "39.7456" "-97.0892" true =
      some (httpExample "https://api.weather.gov/gridpoints/TOP/31,80/forecast") :=
  get_weather_forecast_two_requests httpExample "39.7456" "-97.0892" true
    "https://api.weather.gov/gridpoints/TOP/31,80/forecast" (by rfl)

/-- C4: the `summarize` flag has no effect — `_get_summary` is the
identity, and the tool returns the same value with `summarize := true`
as with `summarize := false`. -/
theorem get_weather_forecast_summarize_irrelevant :
    (∀ forecast : Json, _get_summary forecast = forecast) ∧
    (∀ (http : String → Json) (latitude longitude : String),
      get_weather_forecast http latitude longitude true =
        get_weather_forecast http latitude longitude false) := by
  refine ⟨fun _ => rfl, fun http latitude longitude => ?_⟩
  unfold get_weather_forecast
  cases _get_forecast_url http latitude longitude <;> rfl

/-! ## `src/core/prompts.py` (the two constants the error paths use) -/

/-- `CLARIFICATION_PROMPT` of `src/core/prompts.py`, byte for byte
(including the trailing space on the first line). -/
def CLARIFICATION_PROMPT : String :=
  "The information provided is ambiguous or unclear. \n\nPlease ask the user a specific clarifying question to help you provide accurate recommendations.\n\nBe polite and specific about what information you need.\n"

/-- `WEATHER_ERROR_PROMPT` of `src/core/prompts.py`, byte for byte. -/
def WEATHER_ERROR_PROMPT : String :=
  "There was an issue retrieving weather data. This could be because:\n- The location is outside the United States (NWS API only covers US locations)\n- The coordinates provided are invalid\n- The API is temporarily unavailable\n\nPlease inform the user of the issue and ask if they" ++ sq ++ "d like to:\n1. Try a different US location\n2. Provide more specific location details\n"

/-! ## `src/core/agent.py`

The agent executor's `invoke` is external (a language-model tool-calling
loop); it is modelled by its outcome: either a result dict or a raised
exception.  Python exceptions are classified by `run_agent` only through
their class (`KeyError` vs anything else) and their message, so an
exception is modelled as a tagged message. -/

/-- One entry of a result's `intermediate_steps`: the tool name of the
agent action paired with the tool's observation. -/
structure AgentStep where
  tool : String
  observation : Json

/-- A result dict as the agent layer produces and consumes it.  An
`Option` field of `none` models an absent key. -/
structure AgentDict where
  output : Option String := none
  error : Option String := none
  error_type : Option String := none
  intermediate_steps : Option (List AgentStep) := none
  has_errors : Bool := false

/-- An exception escaping `agent.invoke`, as `run_agent` discriminates
it: a `KeyError` carrying `str(e)`, or any other exception carrying
`str(e)`. -/
inductive AgentError where
  | keyError (msg : String) : AgentError
  | otherError (msg : String) : AgentError

/-- `str(e)` of a modelled exception. -/
def errMsg : AgentError → String
  | AgentError.keyError m => m
  | AgentError.otherError m => m

/-- The per-observation test of `run_agent`'s success path:
`isinstance(observation, str)` and the lowercased text contains
"error" or "exception". -/
def observationHasError : Json → Bool
  | Json.str s => strContains s.toLower "error" || strContains s.toLower "exception"
  | _ => false

/-- The success path of `run_agent`: set `has_errors` when any
intermediate observation is an error-looking string. -/
def mark_has_errors (result : AgentDict) : AgentDict :=
  match result.intermediate_steps with
  | none => result
  | some steps =>
    if steps.any (fun s => observationHasError s.observation) then
      { result with has_errors := true }
    else result

/-- The dict `run_agent` builds for each exception branch of
`src/core/agent.py` (lines 107-147). -/
def run_agent_error_result : AgentError → AgentDict
  | AgentError.keyError m =>
    if strContains m "properties" || strContains m "forecast" then
      { output := some (WEATHER_ERROR_PROMPT ++ "\n\nError details: " ++ m)
        error := some m
        error_type := some "weather_api"
        intermediate_steps := some [] }
    else
      { output := some (CLARIFICATION_PROMPT ++ "\n\nI need more specific information to help you. Could you provide more details about your destination and travel dates?")
        error := some m
        error_type := some "clarification"
        intermediate_steps := some [] }
  | AgentError.otherError m =>
    if strContains m.toLower "location" || strContains m.toLower "coordinates" then
      { output := some WEATHER_ERROR_PROMPT
        error := some m
        error_type := some "location"
        intermediate_steps := some [] }
    else if strContains m.toLower "date" || strContains m.toLower "time" then
      { output := some (CLARIFICATION_PROMPT ++ "\n\nI" ++ sq ++ "m not sure about the dates you mentioned. Could you provide a specific date or number of days from now?")
        error := some m
        error_type := some "date"
        intermediate_steps := some [] }
    else
      { output := some ("I encountered an error while processing your request. Please try rephrasing with more specific details about your destination and travel dates.\n\nError: " ++ m)
        error := some m
        error_type := some "general"
        intermediate_steps := some [] }

/-- Embeds `run_agent` of `src/core/agent.py`, as a function of the
outcome of the (external) `agent.invoke` call. -/
def run_agent (invokeResult : Except AgentError AgentDict) : AgentDict :=
  match invokeResult with
  | Except.ok result => mark_has_errors result
  | Except.error e => run_agent_error_result e

/-- C3: each exception is classified into exactly one of the five
branches, by the stated message tests, with the stated `error_type` and
the stated prompt opening the output. -/
theorem run_agent_error_classification (e : AgentError) :
    (run_agent (Except.error e)).error = some (errMsg e) ∧
    (run_agent (Except.error e)).intermediate_steps = some [] ∧
    (match e with
     | AgentError.keyError m =>
       if strContains m "properties" || strContains m "forecast" then
         (run_agent (Except.error e)).error_type = some "weather_api" ∧
         ∃ t, (run_agent (Except.error e)).output = some (WEATHER_ERROR_PROMPT ++ t)
       else
         (run_agent (Except.error e)).error_type = some "clarification" ∧
         ∃ t, (run_agent (Except.error e)).output = some (CLARIFICATION_PROMPT ++ t)
     | AgentError.otherError m =>
       if strContains m.toLower "location" || strContains m.toLower "coordinates" then
         (run_agent (Except.error e)).error_type = some "location" ∧
         (run_agent (Except.error e)).output = some WEATHER_ERROR_PROMPT
       else if strContains m.toLower "date" || strContains m.toLower "time" then
         (run_agent (Except.error e)).error_type = some "date" ∧
         ∃ t, (run_agent (Except.error e)).output = some (CLARIFICATION_PROMPT ++ t)
       else
         (run_agent (Except.error e)).error_type = some "general") := by
  cases e with
  | keyError m =>
    simp only [run_agent, run_agent_error_result, errMsg]
    split
    · exact ⟨rfl, rfl, rfl, ⟨"\n\nError details: " ++ m, by rw [String.append_assoc]⟩⟩
    · exact ⟨rfl, rfl, rfl, ⟨"\n\nI need more specific information to help you. Could you provide more details about your destination and travel dates?", rfl⟩⟩
  | otherError m =>
    simp only [run_agent, run_agent_error_result, errMsg]
    split
    · exact ⟨rfl, rfl, rfl, rfl⟩
    · split
      · exact ⟨rfl, rfl, rfl,
          ⟨"\n\nI" ++ sq ++ "m not sure about the dates you mentioned. Could you provide a specific date or number of days from now?", by
            simp [String.append_assoc]⟩⟩
      · exact ⟨rfl, rfl, rfl⟩

set_option maxRecDepth 16384 in
/-- C10: `run_agent` is a total function of the invocation outcome (it
re-raises nothing); assuming the external executor's success dict carries
a non-empty `output` (as the AgentExecutor guarantees), the returned
dict always carries a non-empty `output`, and on every error path it
also carries `error` and `error_type` and an empty
`intermediate_steps`. -/
theorem run_agent_total_output (invokeResult : Except AgentError AgentDict)
    (hok : ∀ r, invokeResult = Except.ok r → ∃ s, r.output = some s ∧ s ≠ "") :
    (∃ s, (run_agent invokeResult).output = some s ∧ s ≠ "") ∧
    (∀ e, invokeResult = Except.error e →
      (run_agent invokeResult).error = some (errMsg e) ∧
      (run_agent invokeResult).error_type.isSome = true ∧
      (run_agent invokeResult).intermediate_steps = some []) := by
  have happ : ∀ (a b : String), a ≠ "" → a ++ b ≠ "" := by
    intro a b ha hab
    have hlen : a.length + b.length = 0 := by
      rw [← String.length_append, hab]; rfl
    have ha0 : a.length = 0 := by omega
    apply ha
    cases a with
    | mk data =>
      have hd : data = [] := List.length_eq_zero.mp ha0
      rw [hd]
  have hclar : CLARIFICATION_PROMPT ≠ "" := by decide
  have hweather : WEATHER_ERROR_PROMPT ≠ "" := by decide
  cases invokeResult with
  | ok r =>
    obtain ⟨s, hs, hne⟩ := hok r rfl
    refine ⟨⟨s, ?_, hne⟩, fun e he => by cases he⟩
    have : (mark_has_errors r).output = r.output := by
      unfold mark_has_errors
      cases r.intermediate_steps with
      | none => rfl
      | some steps =>
        simp only []
        split <;> rfl
    simpa [run_agent, this] using hs
  | error e =>
    refine ⟨?_, fun e2 he2 => ?_⟩
    · cases e with
      | keyError m =>
        simp only [run_agent, run_agent_error_result]
        split
        · exact ⟨_, rfl, happ _ _ (happ _ _ hweather)⟩
        · exact ⟨_, rfl, happ _ _ hclar⟩
      | otherError m =>
        simp only [run_agent, run_agent_error_result]
        split
        · exact ⟨_, rfl, hweather⟩
        · split
          · exact ⟨_, rfl, happ _ _ (happ _ _ (happ _ _ hclar))⟩
          · exact ⟨_, rfl, happ _ _ (by decide)⟩
    · cases he2
      cases e with
      | keyError m =>
        simp only [run_agent, run_agent_error_result]
        split <;> exact ⟨rfl, rfl, rfl⟩
      | otherError m =>
        simp only [run_agent, run_agent_error_result]
        split
        · exact ⟨rfl, rfl, rfl⟩
        · split <;> exact ⟨rfl, rfl, rfl⟩

theorem run_agent_total_output_witness :
    (∃ s, (run_agent (Except.error (AgentError.otherError "boom"))).output = some s ∧ s ≠ "") ∧
    (∀ e, (Except.error (AgentError.otherError "boom") : Except AgentError AgentDict) = Except.error e →
      (run_agent (Except.error (AgentError.otherError "boom"))).error = some (errMsg e) ∧
      (run_agent (Except.error (AgentError.otherError "boom"))).error_type.isSome = true ∧
      (run_agent (Except.error (AgentError.otherError "boom"))).intermediate_steps = some []) :=
  run_agent_total_output (Except.error (AgentError.otherError "boom"))
    (fun _r h => Except.noConfusion h)

/-! ## `main.py` — the sequential chain

`WardrobeAgent.get_detailed_response` is a bare `agent.invoke`; its
outcome (result dict, or exception message caught by the outer `try`) is
a parameter, as is the RAG stage `WardrobeRAG.get_recommendations`
(external model + retriever), modelled as `rag : String → Json →
String`. -/

/-- Python truthiness of a modelled value (`if weather_data:`). -/
def truthy : Json → Bool
  | Json.null => false
  | Json.bool b => b
  | Json.num n => n != 0
  | Json.str s => !s.isEmpty
  | Json.arr xs => !xs.isEmpty
  | Json.obj fields => !fields.isEmpty

/-- The loop of `run_sequential_chain`: observation of the first
intermediate step whose tool is `"get_weather_forecast"`. -/
def findWeatherStep : List AgentStep → Option Json
  | [] => none
  | s :: rest =>
    if s.tool = "get_weather_forecast" then some s.observation
    else findWeatherStep rest

/-- The string built by the outer `except` branch of
`run_sequential_chain`. -/
def errorOccurred (msg : String) : String :=
  "An error occurred: " ++ msg ++ "\n\nPlease try rephrasing your request with specific location and dates."

/-- The fallback of `result.get("output", ...)` in `main.py`. -/
def couldNotProcess : String := "I couldn" ++ sq ++ "t process that request."

/-- Embeds `run_sequential_chain` of `main.py`.  When the result dict
has an `"error"` key but no `"output"` key, `result["output"]` raises a
`KeyError("output")` that the enclosing `try` turns into the
`errorOccurred` string (the `str` of that `KeyError` is `'output'`). -/
def run_sequential_chain (rag : String → Json → String) (query : String)
    (agentResult : Except String AgentDict) : String :=
  match agentResult with
  | Except.error e => errorOccurred e
  | Except.ok result =>
    if result.error.isSome then
      match result.output with
      | some out => out
      | none => errorOccurred (sq ++ "output" ++ sq)
    else
      match findWeatherStep (result.intermediate_steps.getD []) with
      | some weather_data =>
        if truthy weather_data then rag query weather_data
        else result.output.getD couldNotProcess
      | none => result.output.getD couldNotProcess

/-- A RAG stage returning a fixed answer, to separate the two stages'
outputs. -/
def ragConst : String → Json → String := fun _ _ => "RAG RECOMMENDATIONS"

/-- An agent result with no error, whose first (and only)
`get_weather_forecast` step observed an empty dict. -/
def c1CounterResult : AgentDict :=
  { output := some "AGENT OUTPUT"
    intermediate_steps := some [⟨"get_weather_forecast", Json.obj []⟩] }

/-- C1 counterexample: the agent result holds a `get_weather_forecast`
step (observation: the empty dict), so the claim says the chain returns
the RAG stage's answer on that observation; the code tests Python
truthiness (`if weather_data:`), the empty dict is falsy, and the
agent's own output is returned instead. -/
theorem run_sequential_chain_claim_counterexample :
    run_sequential_chain ragConst "What should I pack for Chicago?"
        (Except.ok c1CounterResult) ≠
      ragConst "What should I pack for Chicago?" (Json.obj []) := by
  decide

/-- `run_sequential_chain` as the claim describes it, amended only in
the weather branch: the RAG stage runs exactly when the first
`get_weather_forecast` step exists and its observation is truthy;
otherwise the agent's output (or the fixed fallback) is returned. -/
def run_sequential_chain_described (rag : String → Json → String) (query : String)
    (result : AgentDict) : String :=
  if result.error.isSome then
    result.output.getD (errorOccurred (sq ++ "output" ++ sq))
  else
    match findWeatherStep (result.intermediate_steps.getD []) with
    | some weather_data =>
      if truthy weather_data then rag query weather_data
      else result.output.getD couldNotProcess
    | none => result.output.getD couldNotProcess

/-- C1 (amended): on any non-raising agent result whose `"error"` key
(if present) comes with an `"output"` key, the chain behaves as the
amended description; and whenever no `get_weather_forecast` step exists
the result does not depend on the RAG stage at all (the RAG stage is
never invoked without weather data). -/
theorem run_sequential_chain_amended (rag rag2 : String → Json → String)
    (query : String) (result : AgentDict)
    (hout : result.error.isSome = true → result.output.isSome = true) :
    run_sequential_chain rag query (Except.ok result) =
      run_sequential_chain_described rag query result ∧
    (findWeatherStep (result.intermediate_steps.getD []) = none →
      run_sequential_chain rag query (Except.ok result) =
        run_sequential_chain rag2 query (Except.ok result)) := by
  simp only [run_sequential_chain, run_sequential_chain_described]
  by_cases he : result.error.isSome = true
  · cases hoo : result.output with
    | none => rw [hoo] at hout; exact absurd (hout he) (by decide)
    | some out => simp [he, hoo]
  · simp only [if_neg he]
    exact ⟨trivial, fun hw => by rw [hw]⟩

theorem run_sequential_chain_amended_witness :
    run_sequential_chain ragConst "What should I pack for Chicago?"
        (Except.ok c1CounterResult) =
      run_sequential_chain_described ragConst "What should I pack for Chicago?"
        c1CounterResult ∧
    (findWeatherStep (c1CounterResult.intermediate_steps.getD []) = none →
      run_sequential_chain ragConst "What should I pack for Chicago?"
          (Except.ok c1CounterResult) =
        run_sequential_chain (fun _ _ => "OTHER") "What should I pack for Chicago?"
          (Except.ok c1CounterResult)) :=
  run_sequential_chain_amended ragConst (fun _ _ => "OTHER")
    "What should I pack for Chicago?" c1CounterResult (fun h => Bool.noConfusion h)

/-! ## `create_wardrobe_agent` — executor configuration (C7)

The `AgentExecutor` itself is external; what the repository contributes
is the configuration passed to its constructor, modelled as a record
(tools are identified by their registered tool names). -/

/-- The constructor arguments `create_wardrobe_agent` passes to
`AgentExecutor` in `src/core/agent.py`. -/
structure AgentExecutorConfig where
  tools : List String
  verbose : Bool
  handle_parsing_errors : Bool
  max_iterations : Nat
  return_intermediate_steps : Bool
deriving DecidableEq, Repr

/-- Embeds `create_wardrobe_agent` of `src/core/agent.py` at the level
of the executor configuration it builds. -/
def create_wardrobe_agent (verbose : Bool := true) : AgentExecutorConfig :=
  { tools := ["get_current_date", "calculate_future_date", "get_weather_forecast"]
    verbose := verbose
    handle_parsing_errors := true
    max_iterations := 10
    return_intermediate_steps := true }

/-- C7: the executor is configured with exactly the three tools in
order, at most 10 iterations, parsing-error handling, and intermediate
steps returned. -/
theorem create_wardrobe_agent_config (verbose : Bool) :
    (create_wardrobe_agent verbose).tools =
      ["get_current_date", "calculate_future_date", "get_weather_forecast"] ∧
    (create_wardrobe_agent verbose).tools.length = 3 ∧
    (create_wardrobe_agent verbose).max_iterations = 10 ∧
    (create_wardrobe_agent verbose).max_iterations ≤ 10 ∧
    (create_wardrobe_agent verbose).handle_parsing_errors = true ∧
    (create_wardrobe_agent verbose).return_intermediate_steps = true :=
  ⟨rfl, rfl, rfl, Nat.le_refl 10, rfl, rfl⟩

/-! ## `src/core/rag.py` — documents, chain input (C5, C6, C8) -/

/-- A LangChain `Document` as this repository builds it: a
`page_content` string and the `metadata["section"]` string
(`sectionName` here, since `section` is a Lean keyword). -/
structure Document where
  page_content : String
  sectionName : String
deriving DecidableEq, Repr

/-- `format_docs` of `create_wardrobe_rag_chain`: the `"\n\n"`-join of
the documents' page contents. -/
def format_docs (docs : List Document) : String :=
  String.intercalate "\n\n" (docs.map Document.page_content)

/-- The dict `{"question": ..., "weather_info": ...}` that
`WardrobeRAG.get_recommendations` feeds the chain. -/
structure RagInput where
  question : String
  weather_info : String
deriving DecidableEq, Repr

/-- The dict `create_rag_input` returns to the prompt template. -/
structure RagChainInput where
  context : String
  question : String
  weather_info : String
deriving DecidableEq, Repr

/-- Embeds `create_rag_input` of `src/core/rag.py` (the retriever — the
external vector store — is a parameter). -/
def create_rag_input (retriever : String → List Document)
    (input_data : RagInput) : RagChainInput :=
  { context := format_docs (retriever input_data.question)
    question := input_data.question
    weather_info := input_data.weather_info }

/-- What `create_wardrobe_rag_chain` fixes of the chain it builds: the
`k` passed to `as_retriever(search_kwargs={"k": k})` and the first
(`create_rag_input`) step. -/
structure WardrobeRagChain where
  retriever_k : Nat
  firstStep : (String → List Document) → RagInput → RagChainInput

/-- Embeds `create_wardrobe_rag_chain` of `src/core/rag.py` at the level
of its own (non-external) contributions. -/
def create_wardrobe_rag_chain (k : Nat := 4) : WardrobeRagChain :=
  { retriever_k := k
    firstStep := create_rag_input }

/-- C8: the `create_rag_input` step passes `question` and `weather_info`
through unchanged and sets `context` to the `"\n\n"`-join of the
retrieved documents' page contents in retriever order; the retriever is
configured with `k` (default 4). -/
theorem create_rag_input_spec (k : Nat) (retriever : String → List Document)
    (question weather_info : String) :
    (create_wardrobe_rag_chain k).firstStep retriever ⟨question, weather_info⟩ =
      { context := String.intercalate "\n\n" ((retriever question).map Document.page_content)
        question := question
        weather_info := weather_info } ∧
    (create_wardrobe_rag_chain k).retriever_k = k ∧
    (create_wardrobe_rag_chain).retriever_k = 4 :=
  ⟨rfl, rfl, rfl⟩

/-! ## `load_wardrobe_knowledge` (C5) -/

/-- Python `str.isupper` on ASCII text: at least one cased (alphabetic)
character and no lowercase one. -/
def pyIsUpper (s : String) : Bool :=
  s.data.any Char.isAlpha && s.data.all (fun c => !c.isLower)

/-- `section.strip()` is falsy: the chunk is whitespace only. -/
def isBlank (s : String) : Bool := s.trim = ""

/-- The header test of `load_wardrobe_knowledge`:
`section.isupper() or '====' in section`. -/
def isHeaderChunk (s : String) : Bool := pyIsUpper s || strContains s "===="

/-- `section.replace('=', '').strip()`: the section name a header
chunk sets. -/
def headerName (s : String) : String := (s.replace "=" "").trim

/-- The `Document` built from accumulated content chunks and the current
section name. -/
def mkDoc (current_content : List String) (current_section : String) : Document :=
  ⟨String.intercalate "\n\n" current_content, current_section⟩

/-- The chunk loop of `load_wardrobe_knowledge` in `src/core/rag.py`,
with its state (`current_section`, `current_content`, `documents`)
threaded explicitly; the `[]` case is the final flush after the loop. -/
def lwkLoop : List String → String → List String → List Document → List Document
  | [], current_section, current_content, acc =>
    if current_content.isEmpty then acc
    else acc ++ [mkDoc current_content current_section]
  | s :: rest, current_section, current_content, acc =>
    if isBlank s then lwkLoop rest current_section current_content acc
    else if isHeaderChunk s then
      lwkLoop rest (headerName s) []
        (if current_content.isEmpty then acc
         else acc ++ [mkDoc current_content current_section])
    else lwkLoop rest current_section (current_content ++ [s]) acc

/-- Embeds `load_wardrobe_knowledge` of `src/core/rag.py` as a function
of the knowledge-base file's text. -/
def load_wardrobe_knowledge (content : String) : List Document :=
  lwkLoop (content.splitOn "\n\n") "" [] []

theorem length_dropWhile_le (p : String → Bool) (l : List String) :
    (l.dropWhile p).length ≤ l.length := by
  induction l with
  | nil => exact Nat.le_refl 0
  | cons a l ih =>
    rw [List.dropWhile_cons]
    split
    · exact Nat.le_succ_of_le ih
    · exact Nat.le_refl _

/-- The claim's reading of the loop: group the (non-blank) chunks by
headers; each maximal run of non-header chunks becomes one `Document`
joined with `"\n\n"`, carrying the most recent header's name (initially
`""`); a header directly followed by another header contributes
nothing. -/
def lwkGroups : List String → String → List Document
  | [], _ => []
  | s :: rest, sec =>
    if isHeaderChunk s then lwkGroups rest (headerName s)
    else
      mkDoc (s :: rest.takeWhile (fun t => !isHeaderChunk t)) sec ::
        lwkGroups (rest.dropWhile (fun t => !isHeaderChunk t)) sec
termination_by l _ => l.length
decreasing_by
  · simp only [List.length_cons]; omega
  · simp only [List.length_cons]
    exact Nat.lt_succ_of_le (length_dropWhile_le _ _)

/-- The spec of `load_wardrobe_knowledge` in the claim's words: split on
`"\n\n"`, skip blank chunks, group by headers starting in section
`""`. -/
def lwk_spec (content : String) : List Document :=
  lwkGroups ((content.splitOn "\n\n").filter (fun s => !isBlank s)) ""

/-- The loop with the `documents` accumulator factored out. -/
def lwkPend : List String → String → List String → List Document
  | [], current_section, current_content =>
    if current_content.isEmpty then [] else [mkDoc current_content current_section]
  | s :: rest, current_section, current_content =>
    if isBlank s then lwkPend rest current_section current_content
    else if isHeaderChunk s then
      (if current_content.isEmpty then [] else [mkDoc current_content current_section]) ++
        lwkPend rest (headerName s) []
    else lwkPend rest current_section (current_content ++ [s])

theorem lwkLoop_eq_append (l : List String) :
    ∀ cs cc acc, lwkLoop l cs cc acc = acc ++ lwkPend l cs cc := by
  induction l with
  | nil =>
    intro cs cc acc
    simp only [lwkLoop, lwkPend]
    cases h : cc.isEmpty <;> simp [h]
  | cons s rest ih =>
    intro cs cc acc
    simp only [lwkLoop, lwkPend]
    by_cases hb : isBlank s = true
    · simp only [if_pos hb]; exact ih cs cc acc
    · simp only [if_neg hb]
      by_cases hh : isHeaderChunk s = true
      · simp only [if_pos hh, ih]
        cases h : cc.isEmpty <;> simp [h]
      · simp only [if_neg hh]; exact ih cs (cc ++ [s]) acc

theorem takeWhile_cons_pos (p : String → Bool) (a : String) (l : List String)
    (h : p a = true) : (a :: l).takeWhile p = a :: l.takeWhile p := by
  simp only [List.takeWhile, h]

theorem takeWhile_cons_neg (p : String → Bool) (a : String) (l : List String)
    (h : p a = false) : (a :: l).takeWhile p = [] := by
  simp only [List.takeWhile, h]

theorem dropWhile_cons_pos (p : String → Bool) (a : String) (l : List String)
    (h : p a = true) : (a :: l).dropWhile p = l.dropWhile p := by
  simp only [List.dropWhile, h]

theorem dropWhile_cons_neg (p : String → Bool) (a : String) (l : List String)
    (h : p a = false) : (a :: l).dropWhile p = a :: l := by
  simp only [List.dropWhile, h]

/-- One unfolding step of `lwkGroups` in take/drop form. -/
theorem lwkGroups_step (l : List String) (sec : String) :
    lwkGroups l sec =
      (if (l.takeWhile (fun t => !isHeaderChunk t)).isEmpty then []
       else [mkDoc (l.takeWhile (fun t => !isHeaderChunk t)) sec]) ++
        lwkGroups (l.dropWhile (fun t => !isHeaderChunk t)) sec := by
  cases l with
  | nil => simp [lwkGroups]
  | cons s rest =>
    by_cases hh : isHeaderChunk s = true
    · have hns : (fun t => !isHeaderChunk t) s = false := by
        simp only [hh]; rfl
      rw [takeWhile_cons_neg _ _ _ hns, dropWhile_cons_neg _ _ _ hns]
      simp
    · have hns : (fun t => !isHeaderChunk t) s = true := by
        simp only []
        cases h : isHeaderChunk s
        · rfl
        · exact absurd h hh
      rw [takeWhile_cons_pos _ _ _ hns, dropWhile_cons_pos _ _ _ hns]
      simp only [lwkGroups, if_neg hh]
      simp

theorem lwkPend_eq_groups (l : List String) :
    ∀ cs cc,
      lwkPend l cs cc =
        (if (cc ++ ((l.filter (fun s => !isBlank s)).takeWhile
            (fun t => !isHeaderChunk t))).isEmpty then []
         else [mkDoc (cc ++ ((l.filter (fun s => !isBlank s)).takeWhile
            (fun t => !isHeaderChunk t))) cs]) ++
          lwkGroups ((l.filter (fun s => !isBlank s)).dropWhile
            (fun t => !isHeaderChunk t)) cs := by
  induction l with
  | nil =>
    intro cs cc
    simp [lwkPend, lwkGroups]
  | cons s rest ih =>
    intro cs cc
    by_cases hb : isBlank s = true
    · have hfb : (!isBlank s) = false := by rw [hb]; rfl
      simp only [lwkPend, if_pos hb, List.filter_cons, hfb, if_false, Bool.false_eq_true]
      exact ih cs cc
    · have hfb : (!isBlank s) = true := by
        cases h : isBlank s
        · rfl
        · exact absurd h hb
      by_cases hh : isHeaderChunk s = true
      · have hns : (fun t => !isHeaderChunk t) s = false := by
          simp only [hh]; rfl
        simp only [lwkPend, if_neg hb, if_pos hh, List.filter_cons, hfb, if_true]
        rw [takeWhile_cons_neg _ _ _ hns, dropWhile_cons_neg _ _ _ hns]
        rw [ih (headerName s) []]
        have hg : lwkGroups (s :: rest.filter (fun s => !isBlank s)) cs =
            lwkGroups (rest.filter (fun s => !isBlank s)) (headerName s) := by
          simp only [lwkGroups, if_pos hh]
        rw [hg, lwkGroups_step (rest.filter (fun s => !isBlank s)) (headerName s)]
        simp
      · have hns : (fun t => !isHeaderChunk t) s = true := by
          simp only []
          cases h : isHeaderChunk s
          · rfl
          · exact absurd h hh
        simp only [lwkPend, if_neg hb, if_neg hh, List.filter_cons, hfb, if_true]
        rw [takeWhile_cons_pos _ _ _ hns, dropWhile_cons_pos _ _ _ hns]
        rw [ih cs (cc ++ [s])]
        simp

/-- C5: `load_wardrobe_knowledge` equals the claim's description — one
`Document` per header-delimited group of non-blank chunks, with
`page_content` the `"\n\n"`-join of the group and section the most
recent header stripped of `=`; content before any header gets section
`""`, and consecutive headers produce no `Document`. -/
theorem load_wardrobe_knowledge_spec (content : String) :
    load_wardrobe_knowledge content = lwk_spec content := by
  unfold load_wardrobe_knowledge lwk_spec
  rw [lwkLoop_eq_append, lwkPend_eq_groups,
    lwkGroups_step ((content.splitOn "\n\n").filter (fun s => !isBlank s)) ""]
  simp

/-! ## `WardrobeRAG._format_weather_info` (C6) -/

mutual

/-- Python `repr` of a modelled value (as `str` shows it inside
containers): `None`, `True`/`False`, decimal integers, single-quoted
strings, bracketed lists and braced dicts with `", "` separators. -/
def pyRepr : Json → String
  | Json.null => "None"
  | Json.bool b => if b then "True" else "False"
  | Json.num n => toString n
  | Json.str s => sq ++ s ++ sq
  | Json.arr xs => "[" ++ pyReprArr xs ++ "]"
  | Json.obj fields => "\x7b" ++ pyReprObj fields ++ "\x7d"

def pyReprArr : List Json → String
  | [] => ""
  | [x] => pyRepr x
  | x :: y :: rest => pyRepr x ++ ", " ++ pyReprArr (y :: rest)

def pyReprObj : List (String × Json) → String
  | [] => ""
  | [(k, v)] => sq ++ k ++ sq ++ ": " ++ pyRepr v
  | (k, v) :: p :: rest => sq ++ k ++ sq ++ ": " ++ pyRepr v ++ ", " ++ pyReprObj (p :: rest)

end

/-- Python `str` of a modelled value: a string shows itself, everything
else shows its `repr`. -/
def pyStr : Json → String
  | Json.str s => s
  | v => pyRepr v

/-- `period.get(key, default)` rendered by the f-string: the value's
`str`, or the default when the key is missing. -/
def periodField (period : Json) (key : String) (dflt : String) : String :=
  match period.get? key with
  | some v => pyStr v
  | none => dflt

/-- The block the loop body of `_format_weather_info` appends for one
forecast period. -/
def formatPeriod (period : Json) : String :=
  "\n" ++ periodField period "name" "Unknown" ++ ":\n  Temperature: " ++
    periodField period "temperature" "N/A" ++ "°" ++
    periodField period "temperatureUnit" "F" ++ "\n  Conditions: " ++
    periodField period "shortForecast" "N/A" ++ "\n  Wind: " ++
    periodField period "windSpeed" "N/A" ++ "\n"

/-- The `formatted +=` loop of `_format_weather_info`. -/
def formatPeriodsLoop : List Json → String → String
  | [], formatted => formatted
  | p :: rest, formatted => formatPeriodsLoop rest (formatted ++ formatPeriod p)

/-- `weather_info["properties"].get("periods", [])` (a non-list value of
`"periods"` is treated as the default; Python would raise on slicing it,
a path no caller reaches). -/
def getPeriods (props : Json) : List Json :=
  match props.get? "periods" with
  | some (Json.arr ps) => ps
  | _ => []

/-- Embeds `WardrobeRAG._format_weather_info` of `src/core/rag.py`: a
string is returned unchanged; a dict with `"properties"` becomes the
header plus one block per period among the first 7; otherwise the header
plus the value's `str`. -/
def _format_weather_info (weather_info : Json) : String :=
  match weather_info with
  | Json.str s => s
  | wi =>
    match wi.get? "properties" with
    | some props => formatPeriodsLoop ((getPeriods props).take 7) "Weather Forecast:\n"
    | none => "Weather Forecast:\n" ++ pyStr wi

/-- Concatenation of a list of strings (the blocks of the formatted
forecast, in order). -/
def strJoin : List String → String
  | [] => ""
  | x :: xs => x ++ strJoin xs

theorem formatPeriodsLoop_eq (l : List Json) :
    ∀ acc, formatPeriodsLoop l acc = acc ++ strJoin (l.map formatPeriod) := by
  induction l with
  | nil => intro acc; simp [formatPeriodsLoop, strJoin]
  | cons p rest ih =>
    intro acc
    simp only [formatPeriodsLoop, List.map_cons, strJoin, ih,
      String.append_assoc]

/-- C6: `_format_weather_info` returns a string unchanged; on a dict
with `"properties"` it returns `"Weather Forecast:\n"` followed by one
block per period, from at most the first 7 periods, each block holding
name, temperature with unit, short forecast and wind speed with the
`"Unknown"`/`"N/A"`/`"F"` defaults; on a dict without `"properties"` it
returns the header followed by the dict's string representation. -/
theorem format_weather_info_spec (wi : Json) :
    (∀ s, wi = Json.str s → _format_weather_info wi = s) ∧
    (∀ fields, wi = Json.obj fields →
      (∀ props, Json.get? wi "properties" = some props →
        _format_weather_info wi =
          "Weather Forecast:\n" ++
            strJoin (((getPeriods props).take 7).map formatPeriod)) ∧
      (Json.get? wi "properties" = none →
        _format_weather_info wi = "Weather Forecast:\n" ++ pyStr wi)) := by
  constructor
  · intro s hs; subst hs; rfl
  · intro fields hf; subst hf
    constructor
    · intro props hp
      simp only [_format_weather_info, hp, formatPeriodsLoop_eq]
    · intro hn
      simp only [_format_weather_info, hn]

/-- A two-period forecast response. -/
def forecastExample : Json :=
  Json.obj [("properties", Json.obj [("periods", Json.arr
    [Json.obj [("name", Json.str "Today"), ("temperature", Json.num 75),
       ("temperatureUnit", Json.str "F"), ("shortForecast", Json.str "Sunny"),
       ("windSpeed", Json.str "5 mph")],
     Json.obj [("name", Json.str "Tonight"), ("temperature", Json.num 55)]])])]

theorem format_weather_info_spec_witness :
    _format_weather_info forecastExample =
      "Weather Forecast:\n" ++
        strJoin (((getPeriods (Json.obj [("periods", Json.arr
          [Json.obj [("name", Json.str "Today"), ("temperature", Json.num 75),
             ("temperatureUnit", Json.str "F"), ("shortForecast", Json.str "Sunny"),
             ("windSpeed", Json.str "5 mph")],
           Json.obj [("name", Json.str "Tonight"), ("temperature", Json.num 55)]])])).take 7).map
          formatPeriod) :=
  ((format_weather_info_spec forecastExample).2 _ rfl).1 _ rfl

/-! ## `src/tools/date_ops.py` (C9)

`datetime.now()` is modelled by its calendar date `now`; adding
`timedelta(days=n)` steps the calendar date `n` times forward (or
`-n` times backward), which is what day-granularity timedelta
arithmetic does on the Gregorian calendar `datetime` implements. -/

/-- Gregorian leap-year rule (as `datetime`'s calendar). -/
def isLeapYear (y : Int) : Bool :=
  (y % 4 == 0 && y % 100 != 0) || y % 400 == 0

/-- Days in month `m` of year `y`. -/
def daysInMonth (y : Int) (m : Nat) : Nat :=
  if m = 2 then (if isLeapYear y then 29 else 28)
  else if m = 4 ∨ m = 6 ∨ m = 9 ∨ m = 11 then 30
  else 31

/-- A calendar date. -/
structure Date where
  year : Int
  month : Nat
  day : Nat
deriving DecidableEq, Repr

/-- The date is a real Gregorian calendar date. -/
def Date.Valid (d : Date) : Prop :=
  1 ≤ d.month ∧ d.month ≤ 12 ∧ 1 ≤ d.day ∧ d.day ≤ daysInMonth d.year d.month

instance (d : Date) : Decidable d.Valid := by
  unfold Date.Valid; infer_instance

/-- The next calendar day. -/
def succDay (d : Date) : Date :=
  if d.day < daysInMonth d.year d.month then ⟨d.year, d.month, d.day + 1⟩
  else if d.month < 12 then ⟨d.year, d.month + 1, 1⟩
  else ⟨d.year + 1, 1, 1⟩

/-- The previous calendar day. -/
def predDay (d : Date) : Date :=
  if 1 < d.day then ⟨d.year, d.month, d.day - 1⟩
  else if 1 < d.month then ⟨d.year, d.month - 1, daysInMonth d.year (d.month - 1)⟩
  else ⟨d.year - 1, 12, 31⟩

/-- `date + timedelta(days=n)`: step `n` days forward or `-n` days
backward. -/
def addDays (d : Date) (n : Int) : Date :=
  if 0 ≤ n then succDay^[n.toNat] d else predDay^[(-n).toNat] d

/-- Decimal digits of the month/day, zero-padded to width 2
(strftime `%m` / `%d`). -/
def pad2 (n : Nat) : String :=
  String.mk [Nat.digitChar (n / 10 % 10), Nat.digitChar (n % 10)]

/-- Decimal digits of the year, width 4: models strftime `%Y` on the
years 1000–9999 (within which `%Y` is exactly 4 digits on every
platform). -/
def year4 (y : Int) : String :=
  String.mk [Nat.digitChar (y.toNat / 1000 % 10), Nat.digitChar (y.toNat / 100 % 10),
    Nat.digitChar (y.toNat / 10 % 10), Nat.digitChar (y.toNat % 10)]

/-- `strftime("%Y-%m-%d")` of a date. -/
def formatDate (d : Date) : String :=
  year4 d.year ++ "-" ++ pad2 d.month ++ "-" ++ pad2 d.day

/-- Embeds the tool `get_current_date` of `src/tools/date_ops.py`,
as a function of the current date. -/
def get_current_date (now : Date) : String := formatDate now

/-- Embeds the tool `calculate_future_date` of `src/tools/date_ops.py`:
`(datetime.now() + timedelta(days=days)).strftime("%Y-%m-%d")`, with
`days` defaulting to 0. -/
def calculate_future_date (now : Date) (days : Int := 0) : String :=
  formatDate (addDays now days)

/-- Chronological (lexicographic year/month/day) strict order on
dates. -/
def Date.lt (a b : Date) : Prop :=
  a.year < b.year ∨
    (a.year = b.year ∧
      (a.month < b.month ∨ (a.month = b.month ∧ a.day < b.day)))

instance (a b : Date) : Decidable (Date.lt a b) := by
  unfold Date.lt; infer_instance

theorem one_le_daysInMonth (y : Int) (m : Nat) : 1 ≤ daysInMonth y m := by
  unfold daysInMonth
  split
  · split <;> omega
  · split <;> omega

theorem predDay_valid (d : Date) (h : d.Valid) : (predDay d).Valid := by
  obtain ⟨h1, h2, h3, h4⟩ := h
  have h12 : daysInMonth (d.year - 1) 12 = 31 := rfl
  have hm1 : 1 ≤ daysInMonth d.year (d.month - 1) := one_le_daysInMonth _ _
  unfold predDay
  split
  · unfold Date.Valid
    dsimp only
    omega
  · split
    · unfold Date.Valid
      dsimp only
      omega
    · unfold Date.Valid
      dsimp only
      omega

theorem date_lt_trans (a b c : Date) (h1 : Date.lt a b) (h2 : Date.lt b c) :
    Date.lt a c := by
  unfold Date.lt at *
  omega

theorem predDay_lt (d : Date) (h : d.Valid) : Date.lt (predDay d) d := by
  obtain ⟨h1, h2, h3, h4⟩ := h
  unfold predDay
  split
  · unfold Date.lt
    dsimp only
    omega
  · split
    · unfold Date.lt
      dsimp only
      omega
    · unfold Date.lt
      dsimp only
      omega

theorem iterate_pred_valid (k : Nat) (d : Date) (h : d.Valid) :
    (predDay^[k] d).Valid := by
  induction k with
  | zero => exact h
  | succ n ih =>
    rw [Function.iterate_succ_apply']
    exact predDay_valid _ ih

theorem iterate_pred_lt (k : Nat) (d : Date) (h : d.Valid) (hk : 1 ≤ k) :
    Date.lt (predDay^[k] d) d := by
  induction k with
  | zero => omega
  | succ n ih =>
    rw [Function.iterate_succ_apply']
    cases n with
    | zero => simpa using predDay_lt d h
    | succ n2 =>
      exact date_lt_trans _ _ _
        (predDay_lt _ (iterate_pred_valid _ _ h)) (ih (by omega))

theorem year4_length (y : Int) : (year4 y).length = 4 := rfl

theorem pad2_length (n : Nat) : (pad2 n).length = 2 := rfl

theorem formatDate_length (d : Date) : (formatDate d).length = 10 := by
  rw [formatDate, String.length_append, String.length_append,
    String.length_append, String.length_append, year4_length,
    pad2_length, pad2_length]
  rfl

/-- C9: `calculate_future_date` renders the date exactly `days` days
after the current date, as a 10-character `YYYY-MM-DD` string; with
`days = 0` (the default) it agrees with `get_current_date` at the same
instant, and negative `days` yield a strictly earlier date.  The year
bounds delimit where the `%Y` model (4 digits) is exact. -/
theorem calculate_future_date_spec (now : Date) (days : Int)
    (hval : now.Valid)
    (_hy1 : 1000 ≤ (addDays now days).year)
    (_hy2 : (addDays now days).year ≤ 9999) :
    calculate_future_date now days = formatDate (addDays now days) ∧
    (calculate_future_date now days).length = 10 ∧
    calculate_future_date now 0 = get_current_date now ∧
    (days < 0 → Date.lt (addDays now days) now) := by
  refine ⟨rfl, formatDate_length _, rfl, fun hneg => ?_⟩
  unfold addDays
  rw [if_neg (by omega)]
  exact iterate_pred_lt _ _ hval (by omega)

theorem calculate_future_date_spec_witness :
    calculate_future_date ⟨2025, 10, 9⟩ (-5) = formatDate (addDays ⟨2025, 10, 9⟩ (-5)) ∧
    (calculate_future_date ⟨2025, 10, 9⟩ (-5)).length = 10 ∧
    calculate_future_date ⟨2025, 10, 9⟩ 0 = get_current_date ⟨2025, 10, 9⟩ ∧
    ((-5 : Int) < 0 → Date.lt (addDays ⟨2025, 10, 9⟩ (-5)) ⟨2025, 10, 9⟩) :=
  calculate_future_date_spec ⟨2025, 10, 9⟩ (-5) (by decide) (by decide) (by decide)

end TempusVestis
